import Mathlib

/-!
Verification of the PolicyService core of tfc-workflows-tooling
(feature branch 001-policy-operations).

The Go sources are shallowly embedded here:
* `internal/cloud/policy_errors.go` — the entity types
  (`PolicyEvaluation`, `PolicyDetail`, `PolicyOverride`), their `Validate`
  methods, the option types and `validStringID`;
* the evaluation normalizer (`getPolicyFromTaskStages` /
  `getPolicyFromPolicyCheck`, whose bodies also appear as
  `mapFromTaskStage` / `mapFromPolicyCheck` in
  `specs/001-policy-operations/data-model.md`);
* the override orchestrator (`OverridePolicy`,
  `validateOverrideEligibility`, `overrideViaTaskStage`,
  `overrideViaPolicyCheck` from `specs/001-policy-operations/research.md`);
* the wait loop (`WaitForPolicyDecision`) and the backoff strategy
  (`policyWaitBackoffStrategy`).

Go `int` is embedded as `Int`, Go strings as `String`, fallible code as
`Except`.  The gateway (go-tfe client) is the only I/O boundary; it is
embedded as explicit data (`GatewayBehavior`) plus a trace of the calls the
orchestrator issues (`GCall`).
-/

/-- Tests that `c` is an ASCII lowercase letter, the character class `[a-z]` of the Go
regexp in `validStringID`. -/
def isLowerAZ (c : Char) : Bool :=
  'a' ≤ c && c ≤ 'z'

/-- Tests that `c` is an ASCII letter or digit, the character class `[a-zA-Z0-9]` of the
Go regexp in `validStringID`. -/
def isAlnumAZ09 (c : Char) : Bool :=
  ('a' ≤ c && c ≤ 'z') || ('A' ≤ c && c ≤ 'Z') || ('0' ≤ c && c ≤ '9')

/-- Embeds `validStringID` from `internal/cloud/policy_errors.go`: a string is a
valid TFC resource ID when it is non-empty and matches the anchored regexp
`[a-z]+ dash [a-zA-Z0-9]+`.  Since neither class contains the dash, the
regexp holds exactly when the part before the first dash is a non-empty run
of lowercase letters and the rest after that dash is a non-empty run of
letters and digits. -/
def validStringID (id : String) : Bool :=
  let cs := id.toList
  let pre := cs.takeWhile isLowerAZ
  match cs.drop pre.length with
  | '-' :: tail => !pre.isEmpty && !tail.isEmpty && tail.all isAlnumAZ09
  | _ => false

/-- Embeds `PolicyDetail` from `internal/cloud/policy_errors.go`. -/
structure PolicyDetail where
  policyName : String
  enforcementLevel : String
  status : String
  description : String := ""
deriving Repr, DecidableEq

/-- Embeds `PolicyDetail.Validate` from `internal/cloud/policy_errors.go`. -/
def PolicyDetail.Validate (pd : PolicyDetail) : Except String Unit :=
  if pd.policyName = "" then
    .error "policy name must not be empty"
  else if pd.enforcementLevel ≠ "mandatory" && pd.enforcementLevel ≠ "advisory" then
    .error ("invalid enforcement level: " ++ pd.enforcementLevel)
  else if pd.status ≠ "failed" && pd.status ≠ "errored" then
    .error ("invalid status: " ++ pd.status)
  else
    .ok ()

/-- Embeds `PolicyEvaluation` from `internal/cloud/policy_errors.go`; Go `int`
counts become `Int`. -/
structure PolicyEvaluation where
  runID : String
  policyStageID : String := ""
  policyCheckID : String := ""
  totalCount : Int := 0
  passedCount : Int := 0
  advisoryFailedCount : Int := 0
  mandatoryFailedCount : Int := 0
  erroredCount : Int := 0
  failedPolicies : List PolicyDetail := []
  status : String := ""
  requiresOverride : Bool := false
deriving Repr, DecidableEq

/-- Embeds `PolicyEvaluation.Validate` from `internal/cloud/policy_errors.go`, with
its checks in source order. -/
def PolicyEvaluation.Validate (pe : PolicyEvaluation) : Except String Unit :=
  if !validStringID pe.runID then
    .error ("invalid run ID: " ++ pe.runID)
  else if pe.policyStageID = "" && pe.policyCheckID = "" then
    .error "either PolicyStageID or PolicyCheckID must be set"
  else if pe.policyStageID ≠ "" && pe.policyCheckID ≠ "" then
    .error "PolicyStageID and PolicyCheckID are mutually exclusive"
  else if pe.totalCount < 0 || pe.passedCount < 0 || pe.advisoryFailedCount < 0 ||
      pe.mandatoryFailedCount < 0 || pe.erroredCount < 0 then
    .error "counts must be non-negative"
  else if pe.totalCount ≠ pe.passedCount + pe.advisoryFailedCount +
      pe.mandatoryFailedCount + pe.erroredCount then
    .error "total count mismatch"
  else if pe.requiresOverride ≠ decide (pe.mandatoryFailedCount > 0) then
    .error "RequiresOverride mismatch with MandatoryFailedCount"
  else
    .ok ()

/-- Embeds `tfe.PolicyResultCount`: the per-outcome result counts carried by a
modern (task-stage) policy evaluation. -/
structure PolicyResultCount where
  passed : Int
  advisoryFailed : Int
  mandatoryFailed : Int
  errored : Int
deriving Repr, DecidableEq

/-- A modern `tfe.PolicySetOutcome`: the policy-set name and description and
the set's mandatory-failure count (`Outcomes.MandatoryFailed`), the only
parts the normalizer reads. -/
structure ModernPolicySetOutcome where
  policySetName : String
  policySetDescription : String
  mandatoryFailed : Int
deriving Repr, DecidableEq

/-- The raw modern evaluation (`tfe.PolicyEvaluation`): status, result
counts and policy-set outcomes. -/
structure TfePolicyEvaluationRaw where
  status : String
  resultCount : PolicyResultCount
  policySetOutcomes : List ModernPolicySetOutcome
deriving Repr, DecidableEq

/-- One iteration of the modern normalizer's outcome loop: append one
`mandatory`-tagged failed-policy entry when the policy set's
mandatory-failure count is positive. -/
def modernOutcomeStep (acc : List PolicyDetail) (outcome : ModernPolicySetOutcome) :
    List PolicyDetail :=
  if outcome.mandatoryFailed > 0 then
    acc ++ [{ policyName := outcome.policySetName
              enforcementLevel := "mandatory"
              status := "failed"
              description := outcome.policySetDescription }]
  else acc

/-- The modern-path normalizer: `getPolicyFromTaskStages` from
`research.md` (same body as `mapFromTaskStage` in `data-model.md`, which
additionally omits `RunID`).  Counts are copied from the stage's result
counts, `TotalCount` and `RequiresOverride` are recomputed from them, and
one `mandatory`-tagged failed-policy entry is appended per policy-set
outcome whose mandatory-failure count is positive. -/
def getPolicyFromTaskStages (runID stageID : String)
    (pe : TfePolicyEvaluationRaw) : PolicyEvaluation :=
  let result : PolicyEvaluation :=
    { runID := runID
      policyStageID := stageID
      status := pe.status
      passedCount := pe.resultCount.passed
      advisoryFailedCount := pe.resultCount.advisoryFailed
      mandatoryFailedCount := pe.resultCount.mandatoryFailed
      erroredCount := pe.resultCount.errored
      requiresOverride := pe.resultCount.mandatoryFailed > 0 }
  let result :=
    { result with
        totalCount := result.passedCount + result.advisoryFailedCount +
          result.mandatoryFailedCount + result.erroredCount }
  { result with
      failedPolicies := pe.policySetOutcomes.foldl modernOutcomeStep [] }

/-- A legacy `tfe.PolicySetOutcome`: textual outcome, enforcement level and
policy name, the fields the legacy normalizer reads. -/
structure LegacyPolicySetOutcome where
  outcome : String
  enforcementLevel : String
  policyName : String
deriving Repr, DecidableEq

/-- One iteration of the legacy normalizer's outcome loop (the `switch`
body inside `getPolicyFromPolicyCheck` / `mapFromPolicyCheck`). -/
def legacyOutcomeStep (r : PolicyEvaluation) (o : LegacyPolicySetOutcome) :
    PolicyEvaluation :=
  if o.outcome = "passed" then
    { r with passedCount := r.passedCount + 1 }
  else if o.outcome = "failed" then
    if o.enforcementLevel = "mandatory" then
      { r with
          mandatoryFailedCount := r.mandatoryFailedCount + 1
          failedPolicies := r.failedPolicies ++
            [{ policyName := o.policyName
               enforcementLevel := "mandatory"
               status := "failed" }] }
    else
      { r with advisoryFailedCount := r.advisoryFailedCount + 1 }
  else if o.outcome = "errored" then
    { r with erroredCount := r.erroredCount + 1 }
  else
    r

/-- The legacy-path normalizer: `getPolicyFromPolicyCheck` from
`research.md` (same body as `mapFromPolicyCheck` in `data-model.md`, which
additionally omits `RunID`).  It folds the outcome classification over the
check's policy-set outcomes and then recomputes `TotalCount` and
`RequiresOverride` from the accumulated counts. -/
def getPolicyFromPolicyCheck (runID checkID status : String)
    (outcomes : List LegacyPolicySetOutcome) : PolicyEvaluation :=
  let result : PolicyEvaluation :=
    { runID := runID, policyCheckID := checkID, status := status }
  let result := outcomes.foldl legacyOutcomeStep result
  let result :=
    { result with
        totalCount := result.passedCount + result.advisoryFailedCount +
          result.mandatoryFailedCount + result.erroredCount }
  { result with
      requiresOverride := result.mandatoryFailedCount > 0 }

/-- Embeds `PolicyOverride` from `internal/cloud/policy_errors.go`; the
`time.Time` timestamp is embedded as seconds. -/
structure PolicyOverride where
  runID : String
  policyStageID : String := ""
  policyCheckID : String := ""
  justification : String
  initialStatus : String
  finalStatus : String := ""
  overrideComplete : Bool := false
  timestamp : Int := 0
deriving Repr, DecidableEq

/-- The `validFinalStatuses` list inside `PolicyOverride.Validate`. -/
def validFinalStatuses : List String :=
  ["policy_override", "post_plan_completed", "apply_queued", "discarded", "errored"]

/-- Embeds `PolicyOverride.Validate` from `internal/cloud/policy_errors.go`, with
its checks in source order: it rejects an invalid run ID, the case where
both IDs are empty, an empty justification, a wrong initial status, and a
final status outside `validFinalStatuses`. -/
def PolicyOverride.Validate (po : PolicyOverride) : Except String Unit :=
  if !validStringID po.runID then
    .error ("invalid run ID: " ++ po.runID)
  else if po.policyStageID = "" && po.policyCheckID = "" then
    .error "either PolicyStageID or PolicyCheckID must be set"
  else if po.justification = "" then
    .error "justification is required"
  else if po.initialStatus ≠ "post_plan_awaiting_decision" then
    .error ("invalid initial status: " ++ po.initialStatus ++
      ", expected post_plan_awaiting_decision")
  else if !(validFinalStatuses.any (fun s => po.finalStatus = s)) then
    .error ("invalid final status: " ++ po.finalStatus)
  else
    .ok ()

/-- Embeds `GetPolicyEvaluationOptions` from `internal/cloud/policy_errors.go`. -/
structure GetPolicyEvaluationOptions where
  runID : String
  noWait : Bool := false
deriving Repr, DecidableEq

/-- Embeds `GetPolicyEvaluationOptions.Validate` from
`internal/cloud/policy_errors.go`. -/
def GetPolicyEvaluationOptions.Validate (o : GetPolicyEvaluationOptions) :
    Except String Unit :=
  if !validStringID o.runID then .error "invalid run ID format" else .ok ()

/-- Embeds `OverridePolicyOptions` from `internal/cloud/policy_errors.go`. -/
structure OverridePolicyOptions where
  runID : String
  justification : String
deriving Repr, DecidableEq

/-- Embeds `OverridePolicyOptions.Validate` from `internal/cloud/policy_errors.go`:
it rejects an invalid run ID and an *empty* justification (the error value
`ErrInvalidJustification`), and nothing else. -/
def OverridePolicyOptions.Validate (o : OverridePolicyOptions) :
    Except String Unit :=
  if !validStringID o.runID then .error "invalid run ID format"
  else if o.justification = "" then .error "justification is required"
  else .ok ()

/-- A `tfe.TaskStage` as the orchestrator sees it: its ID and status. -/
structure TfeTaskStage where
  id : String
  status : String
deriving Repr, DecidableEq

/-- A `tfe.Run` as the override orchestrator reads it: run ID, status, the
optional task-stage relationship and the optional legacy policy-check
relationship (`nil` pointers become `none`). -/
structure TfeRun where
  id : String
  status : String
  taskStage : Option TfeTaskStage := none
  policyCheck : Option String := none
deriving Repr, DecidableEq

/-- The Go guard `run.TaskStage != nil && run.TaskStage.ID != ""`. -/
def TfeRun.hasTaskStage (run : TfeRun) : Bool :=
  match run.taskStage with
  | some ts => ts.id ≠ ""
  | none => false

/-- The Go guard `run.PolicyCheck != nil && run.PolicyCheck.ID != ""`. -/
def TfeRun.hasPolicyCheck (run : TfeRun) : Bool :=
  match run.policyCheck with
  | some checkID => checkID ≠ ""
  | none => false

/-- The ID the modern override path passes to `TaskStages.Override`
(`run.TaskStage.ID`; the caller has already checked the stage exists). -/
def TfeRun.taskStageID (run : TfeRun) : String :=
  match run.taskStage with
  | some ts => ts.id
  | none => ""

/-- The ID the legacy override path passes to `PolicyChecks.Override`. -/
def TfeRun.policyCheckID (run : TfeRun) : String :=
  match run.policyCheck with
  | some checkID => checkID
  | none => ""

/-- One call the orchestrator issues on the Remote Run Gateway. -/
inductive GCall where
  | readRun (runID : String)
  | overrideStage (stageID comment : String)
  | overrideCheck (checkID : String)
  | createComment (runID body : String)
deriving Repr, DecidableEq

/-- A gateway call that mutates remote state (everything except a run
read). -/
def GCall.isMutating : GCall → Bool
  | .readRun _ => false
  | .overrideStage _ _ => true
  | .overrideCheck _ => true
  | .createComment _ _ => true

/-- The gateway's behaviour for one orchestrator invocation: the outcome of
each remote call the orchestrator may issue.  `readRun = none` means
`Runs.Read` fails; `overrideStage = none` means `TaskStages.Override`
fails, otherwise it returns the given updated stage; `commentErr` makes
`Comments.Create` fail (the orchestrator only logs that). -/
structure GatewayBehavior where
  readRun : Option TfeRun
  overrideStage : Option TfeTaskStage := none
  overrideCheckErr : Bool := false
  commentErr : Bool := false
deriving Repr, DecidableEq

/-- The error outcomes of `OverridePolicy`; `fmt.Errorf` values become
constructors carrying exactly the data interpolated into the message, so
`invalidStatus` carries the observed and the expected status of
`"run status is %s, expected post_plan_awaiting_decision"`. -/
inductive OverrideErr where
  | readRunFailed
  | invalidStatus (observed expected : String)
  | noPolicyEvaluation (runID : String)
  | overrideStageFailed
  | overrideCheckFailed
deriving Repr, DecidableEq

/-- Embeds `validateOverrideEligibility` from `research.md`: read the run; if the
read fails propagate the error, and if the status is not
`post_plan_awaiting_decision` fail with an error carrying the observed and
the expected status.  The second component is the trace of gateway calls
made. -/
def validateOverrideEligibility (g : GatewayBehavior) (runID : String) :
    Except OverrideErr TfeRun × List GCall :=
  match g.readRun with
  | none => (.error .readRunFailed, [.readRun runID])
  | some run =>
    if run.status ≠ "post_plan_awaiting_decision" then
      (.error (.invalidStatus run.status "post_plan_awaiting_decision"),
        [.readRun runID])
    else
      (.ok run, [.readRun runID])

/-- Embeds `overrideViaTaskStage` from `research.md`: call
`TaskStages.Override` with the justification as comment; on success create
the audit comment (a failure there is only logged) and return a
`PolicyOverride` whose `OverrideComplete` records whether the returned
stage status is `task_stage_overridden`.  `FinalStatus` and `Timestamp` are
left at their zero values, exactly as in the source. -/
def overrideViaTaskStage (g : GatewayBehavior) (run : TfeRun)
    (justification : String) : Except OverrideErr PolicyOverride × List GCall :=
  match g.overrideStage with
  | none =>
    (.error .overrideStageFailed, [.overrideStage run.taskStageID justification])
  | some taskStage =>
    (.ok { runID := run.id
           policyStageID := taskStage.id
           justification := justification
           initialStatus := run.status
           overrideComplete := taskStage.status = "task_stage_overridden" },
      [.overrideStage run.taskStageID justification,
       .createComment run.id ("Policy Override: " ++ justification)])

/-- Embeds `overrideViaPolicyCheck` from `research.md`: call
`PolicyChecks.Override`; on success create the audit comment (a failure
there is only logged) and return a `PolicyOverride` with
`OverrideComplete = true` since the legacy API is synchronous. -/
def overrideViaPolicyCheck (g : GatewayBehavior) (run : TfeRun)
    (justification : String) : Except OverrideErr PolicyOverride × List GCall :=
  if g.overrideCheckErr then
    (.error .overrideCheckFailed, [.overrideCheck run.policyCheckID])
  else
    (.ok { runID := run.id
           policyCheckID := run.policyCheckID
           justification := justification
           initialStatus := run.status
           overrideComplete := true },
      [.overrideCheck run.policyCheckID,
       .createComment run.id ("Policy Override: " ++ justification)])

/-- Embeds `OverridePolicy` from `research.md`: check eligibility (run readable and
in `post_plan_awaiting_decision`), then dispatch on the detected API format
(task stage first, then legacy policy check), else fail with the
no-policy-evaluation error.  The justification is never length-checked
here, matching the source. -/
def overridePolicy (g : GatewayBehavior) (options : OverridePolicyOptions) :
    Except OverrideErr PolicyOverride × List GCall :=
  match validateOverrideEligibility g options.runID with
  | (.error e, trace) => (.error e, trace)
  | (.ok run, trace) =>
    if run.hasTaskStage then
      let step := overrideViaTaskStage g run options.justification
      (step.1, trace ++ step.2)
    else if run.hasPolicyCheck then
      let step := overrideViaPolicyCheck g run options.justification
      (step.1, trace ++ step.2)
    else
      (.error (.noPolicyEvaluation run.id), trace)

/-- The outcome of one probe inside `WaitForPolicyDecision`'s retry
closure. -/
inductive ProbeOutcome where
  | success (finalStatus : String)
  | fatal (reason : String)
  | retryable (reason : String)
deriving Repr, DecidableEq

/-- The `switch run.Status` classification inside `WaitForPolicyDecision`
(`research.md`): `policy_override` / `post_plan_completed` succeed;
`discarded`, `canceled` / `force_canceled` and `errored` are distinct
non-retryable errors; `post_plan_awaiting_decision` and any unexpected
status are retryable. -/
def classifyRunStatus (status : String) : ProbeOutcome :=
  if status = "policy_override" || status = "post_plan_completed" then
    .success status
  else if status = "discarded" then
    .fatal "run was discarded"
  else if status = "canceled" || status = "force_canceled" then
    .fatal "run was canceled"
  else if status = "errored" then
    .fatal "run entered error state"
  else if status = "post_plan_awaiting_decision" then
    .retryable "still awaiting decision"
  else
    .retryable ("unexpected status: " ++ status)

/-- The result of `WaitForPolicyDecision`: success with the observed final
status, a distinct terminal failure with its reason, or a timeout (the
deadline elapsed while every probe was retryable). -/
inductive WaitResult where
  | success (finalStatus : String)
  | failed (reason : String)
  | timedOut
deriving Repr, DecidableEq

/-- The polling loop of `WaitForPolicyDecision` over the sequence of run
statuses that successive probes observe: each status is classified; a
success or a fatal classification ends the wait immediately and a retryable
one retries with the next observation; exhausting the observations models
the overall deadline elapsing, reported as a timeout. -/
def waitForPolicyDecision : List String → WaitResult
  | [] => .timedOut
  | status :: rest =>
    match classifyRunStatus status with
    | .success s => .success s
    | .fatal reason => .failed reason
    | .retryable _ => waitForPolicyDecision rest

/-- Embeds `PolicyWaitInitialBackoff` from `research.md`, in seconds: the 10 s
backoff floor. -/
def PolicyWaitInitialBackoff : Nat := 10

/-- Embeds `PolicyWaitMaxBackoff` from `research.md`, in seconds: the 30 s per-step
cap. -/
def PolicyWaitMaxBackoff : Nat := 30

/-- Embeds `PolicyWaitMaxDuration` from `research.md`, in seconds: the 30 min
overall wait bound. -/
def PolicyWaitMaxDuration : Nat := 1800

/-- Modelled from the spec: the raw Fibonacci interval sequence produced by
`retry.NewFibonacci(floor)` (the sethvargo/go-retry combinator is external
to this repository).  Per the spec's backoff policy and the quickstart's
`10s, 10s, 20s, 30s, ...` schedule, it is the Fibonacci recurrence seeded
with the floor twice. -/
def fibBackoff (floor : Nat) : Nat → Nat
  | 0 => floor
  | 1 => floor
  | n + 2 => fibBackoff floor n + fibBackoff floor (n + 1)

/-- Modelled from the spec: the interval for step `n` of
`policyWaitBackoffStrategy`, the Fibonacci sequence from the floor capped
per step by `retry.WithCappedDuration`'s cap. -/
def backoffStep (floor cap : Nat) (n : Nat) : Nat :=
  min cap (fibBackoff floor n)

/-- Embeds `policyWaitBackoffStrategy` from `research.md`: Fibonacci intervals from
the 10 s floor, capped at 30 s per step (the 30 min total bound is enforced
by the wait engine's deadline, not by the step sequence). -/
def policyWaitBackoffStrategy (n : Nat) : Nat :=
  backoffStep PolicyWaitInitialBackoff PolicyWaitMaxBackoff n

/-- What one probe of the Wait Engine reports (spec §4.3). -/
inductive ProbeStep where
  | stillPending
  | success
  | terminalFailure
deriving Repr, DecidableEq

/-- A terminal state of the Wait Engine's state machine, recording how many
probes ran and the total time slept. -/
inductive EngineResult where
  | done (probes elapsed : Nat)
  | failed (probes elapsed : Nat)
  | timedOut (probes elapsed : Nat)
deriving Repr, DecidableEq

/-- Total seconds slept before the engine terminated. -/
def EngineResult.elapsed : EngineResult → Nat
  | .done _ e => e
  | .failed _ e => e
  | .timedOut _ e => e

/-- Number of probes the engine invoked. -/
def EngineResult.probes : EngineResult → Nat
  | .done p _ => p
  | .failed p _ => p
  | .timedOut p _ => p

/-- Positivity of the Fibonacci backoff intervals. -/
theorem fibBackoff_pos (floor : Nat) (hfloor : 0 < floor) :
    ∀ n, 0 < fibBackoff floor n := by
  intro n
  induction n using Nat.strong_induction_on with
  | _ n ih =>
    match n with
    | 0 => simpa [fibBackoff] using hfloor
    | 1 => simpa [fibBackoff] using hfloor
    | n + 2 =>
      have h1 := ih n (by omega)
      have h2 := ih (n + 1) (by omega)
      simp only [fibBackoff]
      omega

/-- Modelled from the spec (§4.3, the `retry.Do` driver is external to this
repository): the Wait Engine's polling loop.  At step `n` with `elapsed`
seconds already spent it probes; still-pending with the deadline already
reached times out, otherwise it sleeps for the step's backoff interval
truncated so it never sleeps past the deadline, and recurses.  `step` is
the backoff schedule, positive at every index so the loop terminates. -/
def waitEngineAux (probe : Nat → ProbeStep) (step : Nat → Nat)
    (hstep : ∀ m, 0 < step m) (deadline : Nat) (n elapsed : Nat) :
    EngineResult :=
  match probe n with
  | .success => .done (n + 1) elapsed
  | .terminalFailure => .failed (n + 1) elapsed
  | .stillPending =>
    if h : deadline ≤ elapsed then
      .timedOut (n + 1) elapsed
    else
      waitEngineAux probe step hstep deadline (n + 1)
        (elapsed + min (step n) (deadline - elapsed))
termination_by deadline - elapsed
decreasing_by
  have hm : 0 < min (step n) (deadline - elapsed) :=
    lt_min (hstep n) (by omega)
  omega

/-- Modelled from the spec: a full Wait Engine invocation starts at step 0
with nothing elapsed. -/
def waitEngine (probe : Nat → ProbeStep) (step : Nat → Nat)
    (hstep : ∀ m, 0 < step m) (deadline : Nat) : EngineResult :=
  waitEngineAux probe step hstep deadline 0 0

/-- The comparison the C3 format-equivalence claim asserts, stated from the
spec's words: two normalized evaluations are equal in every field except
the stage/check identifier fields. -/
def eqExceptIDs (a b : PolicyEvaluation) : Prop :=
  a.runID = b.runID ∧ a.totalCount = b.totalCount ∧
  a.passedCount = b.passedCount ∧ a.advisoryFailedCount = b.advisoryFailedCount ∧
  a.mandatoryFailedCount = b.mandatoryFailedCount ∧ a.erroredCount = b.erroredCount ∧
  a.failedPolicies = b.failedPolicies ∧ a.status = b.status ∧
  a.requiresOverride = b.requiresOverride

instance (a b : PolicyEvaluation) : Decidable (eqExceptIDs a b) := by
  unfold eqExceptIDs
  infer_instance

/-- Modelled from the spec's words for the format-equivalence property:
modern and legacy raw inputs are semantically equivalent when they carry
the same status, the modern per-outcome result counts equal the counts the
legacy outcome list induces, and the failing policy names agree in order —
the modern policy sets with a positive mandatory-failure count carry the
same names as the legacy outcomes that failed at mandatory enforcement
(those are exactly the failing policies either path lists, and both paths
tag them `mandatory`/`failed`). -/
def specEquivalentInputs (modern : TfePolicyEvaluationRaw)
    (legacyStatus : String) (legacy : List LegacyPolicySetOutcome) : Prop :=
  modern.status = legacyStatus ∧
  modern.resultCount.passed = (legacy.countP (fun o => o.outcome = "passed") : Int) ∧
  modern.resultCount.advisoryFailed =
    (legacy.countP (fun o => o.outcome = "failed" ∧ o.enforcementLevel ≠ "mandatory") : Int) ∧
  modern.resultCount.mandatoryFailed =
    (legacy.countP (fun o => o.outcome = "failed" ∧ o.enforcementLevel = "mandatory") : Int) ∧
  modern.resultCount.errored = (legacy.countP (fun o => o.outcome = "errored") : Int) ∧
  (modern.policySetOutcomes.filter (fun o => o.mandatoryFailed > 0)).map
      (fun o => o.policySetName) =
    (legacy.filter (fun o => o.outcome = "failed" ∧ o.enforcementLevel = "mandatory")).map
      (fun o => o.policyName)

instance (modern : TfePolicyEvaluationRaw) (legacyStatus : String)
    (legacy : List LegacyPolicySetOutcome) :
    Decidable (specEquivalentInputs modern legacyStatus legacy) := by
  unfold specEquivalentInputs
  infer_instance

/-- A failed-policy entry with its description cleared, used to compare the
two normalizers' failed-policy lists up to the description field. -/
def PolicyDetail.stripDescription (pd : PolicyDetail) : PolicyDetail :=
  { pd with description := "" }

/-- The `"passed"` branch condition of the legacy outcome switch. -/
def isPassedOutcome (o : LegacyPolicySetOutcome) : Bool :=
  decide (o.outcome = "passed")

/-- The `"failed"`-and-mandatory branch condition of the legacy outcome
switch. -/
def isMandatoryFailedOutcome (o : LegacyPolicySetOutcome) : Bool :=
  decide (o.outcome = "failed" ∧ o.enforcementLevel = "mandatory")

/-- The `"failed"`-and-not-mandatory branch condition of the legacy outcome
switch. -/
def isAdvisoryFailedOutcome (o : LegacyPolicySetOutcome) : Bool :=
  decide (o.outcome = "failed" ∧ o.enforcementLevel ≠ "mandatory")

/-- The `"errored"` branch condition of the legacy outcome switch. -/
def isErroredOutcome (o : LegacyPolicySetOutcome) : Bool :=
  decide (o.outcome = "errored")

/-- An outcome the legacy switch recognizes at all (any of its three
cases). -/
def isRecognizedOutcome (o : LegacyPolicySetOutcome) : Bool :=
  decide (o.outcome = "passed" ∨ o.outcome = "failed" ∨ o.outcome = "errored")

/-- The failed-policy entry the legacy path appends for a mandatory
failure. -/
def legacyFailedDetail (o : LegacyPolicySetOutcome) : PolicyDetail :=
  { policyName := o.policyName
    enforcementLevel := "mandatory"
    status := "failed" }

/-- Closed form of the legacy normalizer's outcome loop: starting from any
accumulator it adds, per classification, the number of matching outcomes to
each count and appends one mandatory failed-policy entry per mandatory
failure, leaving every other field unchanged. -/
theorem legacy_foldl_eq (outcomes : List LegacyPolicySetOutcome)
    (r : PolicyEvaluation) :
    outcomes.foldl legacyOutcomeStep r =
      { r with
          passedCount := r.passedCount + (outcomes.countP isPassedOutcome : Int)
          advisoryFailedCount :=
            r.advisoryFailedCount + (outcomes.countP isAdvisoryFailedOutcome : Int)
          mandatoryFailedCount :=
            r.mandatoryFailedCount + (outcomes.countP isMandatoryFailedOutcome : Int)
          erroredCount := r.erroredCount + (outcomes.countP isErroredOutcome : Int)
          failedPolicies := r.failedPolicies ++
            (outcomes.filter isMandatoryFailedOutcome).map legacyFailedDetail } := by
  induction outcomes generalizing r with
  | nil => simp
  | cons o rest ih =>
    cases r with
    | mk runID stageID checkID total passed adv mand err fps status ro =>
      by_cases hp : o.outcome = "passed"
      · simp [List.foldl_cons, legacyOutcomeStep, hp, ih, isPassedOutcome,
          isAdvisoryFailedOutcome, isMandatoryFailedOutcome, isErroredOutcome,
          List.countP_cons, List.filter_cons]
        omega
      · by_cases hf : o.outcome = "failed"
        · by_cases hm : o.enforcementLevel = "mandatory"
          · simp [List.foldl_cons, legacyOutcomeStep, hp, hf, hm, ih,
              isPassedOutcome, isAdvisoryFailedOutcome, isMandatoryFailedOutcome,
              isErroredOutcome, legacyFailedDetail, List.countP_cons,
              List.filter_cons]
            omega
          · simp [List.foldl_cons, legacyOutcomeStep, hp, hf, hm, ih,
              isPassedOutcome, isAdvisoryFailedOutcome, isMandatoryFailedOutcome,
              isErroredOutcome, List.countP_cons, List.filter_cons]
            omega
        · by_cases he : o.outcome = "errored"
          · simp [List.foldl_cons, legacyOutcomeStep, hp, hf, he, ih,
              isPassedOutcome, isAdvisoryFailedOutcome, isMandatoryFailedOutcome,
              isErroredOutcome, List.countP_cons, List.filter_cons]
            omega
          · simp [List.foldl_cons, legacyOutcomeStep, hp, hf, he, ih,
              isPassedOutcome, isAdvisoryFailedOutcome, isMandatoryFailedOutcome,
              isErroredOutcome, List.countP_cons, List.filter_cons]

/-- The failed-policy entry the modern path appends for a policy set with
mandatory failures. -/
def modernFailedDetail (o : ModernPolicySetOutcome) : PolicyDetail :=
  { policyName := o.policySetName
    enforcementLevel := "mandatory"
    status := "failed"
    description := o.policySetDescription }

/-- Closed form of the modern normalizer's outcome loop: it appends one
entry per policy set whose mandatory-failure count is positive. -/
theorem modern_foldl_eq (outcomes : List ModernPolicySetOutcome)
    (acc : List PolicyDetail) :
    outcomes.foldl modernOutcomeStep acc =
      acc ++ (outcomes.filter (fun o => o.mandatoryFailed > 0)).map
        modernFailedDetail := by
  induction outcomes generalizing acc with
  | nil => simp
  | cons o rest ih =>
    by_cases h : o.mandatoryFailed > 0
    · simp [List.foldl_cons, modernOutcomeStep, h, ih, modernFailedDetail,
        List.filter_cons]
    · simp [List.foldl_cons, modernOutcomeStep, h, ih, List.filter_cons]

/-- Closed form of the modern-path normalizer. -/
theorem getPolicyFromTaskStages_eq (runID stageID : String)
    (pe : TfePolicyEvaluationRaw) :
    getPolicyFromTaskStages runID stageID pe =
      { runID := runID
        policyStageID := stageID
        status := pe.status
        passedCount := pe.resultCount.passed
        advisoryFailedCount := pe.resultCount.advisoryFailed
        mandatoryFailedCount := pe.resultCount.mandatoryFailed
        erroredCount := pe.resultCount.errored
        totalCount := pe.resultCount.passed + pe.resultCount.advisoryFailed +
          pe.resultCount.mandatoryFailed + pe.resultCount.errored
        requiresOverride := decide (pe.resultCount.mandatoryFailed > 0)
        failedPolicies :=
          (pe.policySetOutcomes.filter (fun o => o.mandatoryFailed > 0)).map
            modernFailedDetail } := by
  simp [getPolicyFromTaskStages, modern_foldl_eq]

/-- Closed form of the legacy-path normalizer. -/
theorem getPolicyFromPolicyCheck_eq (runID checkID status : String)
    (outcomes : List LegacyPolicySetOutcome) :
    getPolicyFromPolicyCheck runID checkID status outcomes =
      { runID := runID
        policyCheckID := checkID
        status := status
        passedCount := (outcomes.countP isPassedOutcome : Int)
        advisoryFailedCount := (outcomes.countP isAdvisoryFailedOutcome : Int)
        mandatoryFailedCount := (outcomes.countP isMandatoryFailedOutcome : Int)
        erroredCount := (outcomes.countP isErroredOutcome : Int)
        totalCount := (outcomes.countP isPassedOutcome : Int) +
          (outcomes.countP isAdvisoryFailedOutcome : Int) +
          (outcomes.countP isMandatoryFailedOutcome : Int) +
          (outcomes.countP isErroredOutcome : Int)
        requiresOverride :=
          decide ((outcomes.countP isMandatoryFailedOutcome : Int) > 0)
        failedPolicies :=
          (outcomes.filter isMandatoryFailedOutcome).map legacyFailedDetail } := by
  simp [getPolicyFromPolicyCheck, legacy_foldl_eq]

/-- C2 (code_bug evidence): the code's `OverridePolicyOptions.Validate`
accepts the justification `"hi"` although it is shorter than the
10-character minimum the contract and data model require, so an
`OverridePolicy` call with it is not rejected as invalid input. -/
theorem C2_code_accepts_short_justification :
    OverridePolicyOptions.Validate
        { runID := "run-abc123", justification := "hi" } = .ok () ∧
      ("hi" : String).length < 10 := by
  constructor
  · rfl
  · decide

/-- C4: when the run exists but its status is not
`post_plan_awaiting_decision`, `OverridePolicy` returns the invalid-status
error carrying both the observed and the expected status, and the only
gateway call made is the (non-mutating) run read. -/
theorem C4_wrong_status_rejected_without_mutation
    (g : GatewayBehavior) (options : OverridePolicyOptions) (run : TfeRun)
    (hread : g.readRun = some run)
    (hstatus : run.status ≠ "post_plan_awaiting_decision") :
    overridePolicy g options =
      (.error (.invalidStatus run.status "post_plan_awaiting_decision"),
        [.readRun options.runID]) ∧
      ∀ c ∈ (overridePolicy g options).2, c.isMutating = false := by
  have h1 : overridePolicy g options =
      (.error (.invalidStatus run.status "post_plan_awaiting_decision"),
        [.readRun options.runID]) := by
    simp [overridePolicy, validateOverrideEligibility, hread, hstatus]
  refine ⟨h1, ?_⟩
  rw [h1]
  intro c hc
  simp only [List.mem_singleton] at hc
  subst hc
  rfl

/-- Witness for C4: an `applied` run is rejected with an error citing
`applied` and `post_plan_awaiting_decision`, with only the run read
issued. -/
theorem C4_wrong_status_rejected_without_mutation_witness :
    overridePolicy
        { readRun := some { id := "run-abc123", status := "applied" } }
        { runID := "run-abc123", justification := "hotfix approved" } =
      (.error (.invalidStatus "applied" "post_plan_awaiting_decision"),
        [.readRun "run-abc123"]) ∧
      ∀ c ∈ (overridePolicy
        { readRun := some { id := "run-abc123", status := "applied" } }
        { runID := "run-abc123", justification := "hotfix approved" }).2,
        c.isMutating = false :=
  C4_wrong_status_rejected_without_mutation
    { readRun := some { id := "run-abc123", status := "applied" } }
    { runID := "run-abc123", justification := "hotfix approved" }
    { id := "run-abc123", status := "applied" }
    rfl (by decide)

/-- C8: the legacy normalizer on outcomes
[passed, failed/mandatory, failed/advisory, errored] yields one of each
count and a total of four. -/
theorem C8_legacy_scenario_counts :
    (getPolicyFromPolicyCheck "run-xyz789" "polchk-1" "failed"
        [{ outcome := "passed", enforcementLevel := "mandatory", policyName := "pol-a" },
         { outcome := "failed", enforcementLevel := "mandatory", policyName := "pol-b" },
         { outcome := "failed", enforcementLevel := "advisory", policyName := "pol-c" },
         { outcome := "errored", enforcementLevel := "advisory", policyName := "pol-d" }]).passedCount = 1 ∧
    (getPolicyFromPolicyCheck "run-xyz789" "polchk-1" "failed"
        [{ outcome := "passed", enforcementLevel := "mandatory", policyName := "pol-a" },
         { outcome := "failed", enforcementLevel := "mandatory", policyName := "pol-b" },
         { outcome := "failed", enforcementLevel := "advisory", policyName := "pol-c" },
         { outcome := "errored", enforcementLevel := "advisory", policyName := "pol-d" }]).advisoryFailedCount = 1 ∧
    (getPolicyFromPolicyCheck "run-xyz789" "polchk-1" "failed"
        [{ outcome := "passed", enforcementLevel := "mandatory", policyName := "pol-a" },
         { outcome := "failed", enforcementLevel := "mandatory", policyName := "pol-b" },
         { outcome := "failed", enforcementLevel := "advisory", policyName := "pol-c" },
         { outcome := "errored", enforcementLevel := "advisory", policyName := "pol-d" }]).mandatoryFailedCount = 1 ∧
    (getPolicyFromPolicyCheck "run-xyz789" "polchk-1" "failed"
        [{ outcome := "passed", enforcementLevel := "mandatory", policyName := "pol-a" },
         { outcome := "failed", enforcementLevel := "mandatory", policyName := "pol-b" },
         { outcome := "failed", enforcementLevel := "advisory", policyName := "pol-c" },
         { outcome := "errored", enforcementLevel := "advisory", policyName := "pol-d" }]).erroredCount = 1 ∧
    (getPolicyFromPolicyCheck "run-xyz789" "polchk-1" "failed"
        [{ outcome := "passed", enforcementLevel := "mandatory", policyName := "pol-a" },
         { outcome := "failed", enforcementLevel := "mandatory", policyName := "pol-b" },
         { outcome := "failed", enforcementLevel := "advisory", policyName := "pol-c" },
         { outcome := "errored", enforcementLevel := "advisory", policyName := "pol-d" }]).totalCount = 4 := by
  refine ⟨rfl, rfl, rfl, rfl, rfl⟩

/-- C9 counterexample: `PolicyOverride.Validate` accepts a value in which
*both* `PolicyStageID` and `PolicyCheckID` are set, so it does not enforce
the mutual-exclusion half of the claimed exactly-one rule. -/
theorem C9_both_ids_accepted_counterexample :
    PolicyOverride.Validate
        { runID := "run-abc123"
          policyStageID := "ts-1"
          policyCheckID := "polchk-1"
          justification := "approved by CTO"
          initialStatus := "post_plan_awaiting_decision"
          finalStatus := "policy_override" } = .ok () ∧
      ¬("ts-1" = "" ∨ "polchk-1" = "") := by
  constructor
  · rfl
  · decide

/-- C9 amended: `PolicyOverride.Validate` accepts a value only if at least
one of `PolicyStageID`/`PolicyCheckID` is non-empty (the both-set case is
not rejected), `InitialStatus` equals `post_plan_awaiting_decision`, and
`FinalStatus` is one of the five valid final statuses. -/
theorem C9_validate_necessary_conditions (po : PolicyOverride)
    (h : PolicyOverride.Validate po = .ok ()) :
    (po.policyStageID ≠ "" ∨ po.policyCheckID ≠ "") ∧
      po.initialStatus = "post_plan_awaiting_decision" ∧
      po.finalStatus ∈ validFinalStatuses := by
  unfold PolicyOverride.Validate at h
  split_ifs at h with h1 h2 h3 h4 h5
  have h2' : ¬(po.policyStageID = "" ∧ po.policyCheckID = "") := by
    simpa using h2
  have h4' : po.initialStatus = "post_plan_awaiting_decision" := by
    by_contra hc
    exact h4 hc
  have h5' : ∃ s ∈ validFinalStatuses, po.finalStatus = s := by
    simpa using h5
  obtain ⟨s, hs, heq⟩ := h5'
  subst heq
  exact ⟨by tauto, h4', hs⟩

/-- Witness for C9: a value the validator accepts indeed satisfies the
amended necessary conditions. -/
theorem C9_validate_necessary_conditions_witness :
    ("ts-1" ≠ "" ∨ "" ≠ "") ∧
      "post_plan_awaiting_decision" = "post_plan_awaiting_decision" ∧
      "policy_override" ∈ validFinalStatuses :=
  C9_validate_necessary_conditions
    { runID := "run-abc123"
      policyStageID := "ts-1"
      justification := "approved by CTO"
      initialStatus := "post_plan_awaiting_decision"
      finalStatus := "policy_override" }
    rfl

/-- The PolicyEvaluation count invariant the spec asserts for every
normalized value: the total equals the sum of the four counts, all counts
are non-negative, and `RequiresOverride` holds exactly when mandatory
failures exist. -/
def countInvariant (pe : PolicyEvaluation) : Prop :=
  pe.totalCount = pe.passedCount + pe.advisoryFailedCount +
    pe.mandatoryFailedCount + pe.erroredCount ∧
  0 ≤ pe.passedCount ∧ 0 ≤ pe.advisoryFailedCount ∧
  0 ≤ pe.mandatoryFailedCount ∧ 0 ≤ pe.erroredCount ∧ 0 ≤ pe.totalCount ∧
  (pe.requiresOverride = true ↔ 0 < pe.mandatoryFailedCount)

instance (pe : PolicyEvaluation) : Decidable (countInvariant pe) := by
  unfold countInvariant
  infer_instance

/-- C1: with a well-formed raw input — a run ID matching the TFC ID format,
a non-empty stage or check ID, and (on the modern path, whose counts are
copied from upstream) non-negative upstream counts — both normalizer paths
produce a value satisfying the count invariant, and that value passes
`PolicyEvaluation.Validate`. -/
theorem C1_normalizer_invariant_and_validate
    (runID stageID checkID status : String)
    (pe : TfePolicyEvaluationRaw) (outcomes : List LegacyPolicySetOutcome)
    (hrun : validStringID runID = true)
    (hstage : stageID ≠ "") (hcheck : checkID ≠ "")
    (hp : 0 ≤ pe.resultCount.passed) (ha : 0 ≤ pe.resultCount.advisoryFailed)
    (hm : 0 ≤ pe.resultCount.mandatoryFailed) (he : 0 ≤ pe.resultCount.errored) :
    (countInvariant (getPolicyFromTaskStages runID stageID pe) ∧
      (getPolicyFromTaskStages runID stageID pe).Validate = .ok ()) ∧
    (countInvariant (getPolicyFromPolicyCheck runID checkID status outcomes) ∧
      (getPolicyFromPolicyCheck runID checkID status outcomes).Validate = .ok ()) := by
  constructor
  · rw [getPolicyFromTaskStages_eq]
    constructor
    · unfold countInvariant
      refine ⟨rfl, hp, ha, hm, he, ?_, by simp⟩
      show (0 : Int) ≤ pe.resultCount.passed + pe.resultCount.advisoryFailed +
        pe.resultCount.mandatoryFailed + pe.resultCount.errored
      omega
    · unfold PolicyEvaluation.Validate
      split_ifs with h1 h2 h3 h4 h5 h6
      · simp [hrun] at h1
      · simp [hstage] at h2
      · simp at h3
      · simp only [Bool.or_eq_true, decide_eq_true_eq] at h4
        omega
      · simp at h5
      · simp at h6
      · rfl
  · rw [getPolicyFromPolicyCheck_eq]
    constructor
    · unfold countInvariant
      refine ⟨rfl, by positivity, by positivity, by positivity, by positivity,
        by positivity, by simp⟩
    · unfold PolicyEvaluation.Validate
      split_ifs with h1 h2 h3 h4 h5 h6
      · simp [hrun] at h1
      · simp [hcheck] at h2
      · simp [hcheck] at h3
      · simp only [Bool.or_eq_true, decide_eq_true_eq] at h4
        omega
      · simp at h5
      · simp at h6
      · rfl

/-- Witness for C1: the modern scenario from the spec (counts 5/1/2/0) and
a small legacy check both satisfy the invariant and pass validation. -/
theorem C1_normalizer_invariant_and_validate_witness :
    (countInvariant (getPolicyFromTaskStages "run-abc123" "ts-1"
        { status := "failed"
          resultCount :=
            { passed := 5, advisoryFailed := 1, mandatoryFailed := 2, errored := 0 }
          policySetOutcomes := [] }) ∧
      (getPolicyFromTaskStages "run-abc123" "ts-1"
        { status := "failed"
          resultCount :=
            { passed := 5, advisoryFailed := 1, mandatoryFailed := 2, errored := 0 }
          policySetOutcomes := [] }).Validate = .ok ()) ∧
    (countInvariant (getPolicyFromPolicyCheck "run-abc123" "polchk-1" "passed"
        [{ outcome := "passed", enforcementLevel := "advisory", policyName := "p" }]) ∧
      (getPolicyFromPolicyCheck "run-abc123" "polchk-1" "passed"
        [{ outcome := "passed", enforcementLevel := "advisory", policyName := "p" }]).Validate =
        .ok ()) :=
  C1_normalizer_invariant_and_validate "run-abc123" "ts-1" "polchk-1" "passed"
    { status := "failed"
      resultCount :=
        { passed := 5, advisoryFailed := 1, mandatoryFailed := 2, errored := 0 }
      policySetOutcomes := [] }
    [{ outcome := "passed", enforcementLevel := "advisory", policyName := "p" }]
    (by decide) (by decide) (by decide) (by decide) (by decide) (by decide) (by decide)

/-- The four legacy classifications partition the recognized outcomes, so
their counts sum to the number of recognized outcomes. -/
theorem countP_partition (outcomes : List LegacyPolicySetOutcome) :
    outcomes.countP isPassedOutcome + outcomes.countP isAdvisoryFailedOutcome +
      outcomes.countP isMandatoryFailedOutcome + outcomes.countP isErroredOutcome =
      outcomes.countP isRecognizedOutcome := by
  induction outcomes with
  | nil => simp
  | cons o rest ih =>
    simp only [List.countP_cons, isPassedOutcome, isAdvisoryFailedOutcome,
      isMandatoryFailedOutcome, isErroredOutcome, isRecognizedOutcome] at ih ⊢
    by_cases hp : o.outcome = "passed" <;>
      by_cases hf : o.outcome = "failed" <;>
      by_cases he : o.outcome = "errored" <;>
      by_cases hm : o.enforcementLevel = "mandatory" <;>
      simp_all <;> omega

/-- A legacy outcome the switch does not recognize falsifies all four
branch conditions. -/
theorem unrecognized_branch_conditions (o : LegacyPolicySetOutcome)
    (ho : isRecognizedOutcome o = false) :
    isPassedOutcome o = false ∧ isAdvisoryFailedOutcome o = false ∧
      isMandatoryFailedOutcome o = false ∧ isErroredOutcome o = false := by
  simp only [isRecognizedOutcome, decide_eq_false_iff_not, not_or] at ho
  simp [isPassedOutcome, isAdvisoryFailedOutcome, isMandatoryFailedOutcome,
    isErroredOutcome, ho.1, ho.2.1, ho.2.2]

/-- C10: an unrecognized legacy outcome contributes nothing — deleting it
from the outcome list leaves the normalized result unchanged; the total
count always equals the number of recognized outcomes; and on a concrete
input with an unrecognized outcome the total is strictly smaller than the
number of outcomes present. -/
theorem C10_unrecognized_outcome_ignored
    (runID checkID status : String)
    (xs ys : List LegacyPolicySetOutcome) (o : LegacyPolicySetOutcome)
    (ho : isRecognizedOutcome o = false) :
    getPolicyFromPolicyCheck runID checkID status (xs ++ o :: ys) =
      getPolicyFromPolicyCheck runID checkID status (xs ++ ys) ∧
    (∀ outcomes : List LegacyPolicySetOutcome,
      (getPolicyFromPolicyCheck runID checkID status outcomes).totalCount =
        (outcomes.countP isRecognizedOutcome : Int)) ∧
    (getPolicyFromPolicyCheck "run-a1" "polchk-1" "failed"
        [{ outcome := "passed", enforcementLevel := "advisory", policyName := "p" },
         { outcome := "unknown", enforcementLevel := "advisory", policyName := "q" }]).totalCount <
      (([{ outcome := "passed", enforcementLevel := "advisory", policyName := "p" },
          { outcome := "unknown", enforcementLevel := "advisory", policyName := "q" }] :
          List LegacyPolicySetOutcome).length : Int) := by
  obtain ⟨hp, ha, hm, he⟩ := unrecognized_branch_conditions o ho
  refine ⟨?_, ?_, by decide⟩
  · simp [getPolicyFromPolicyCheck_eq, List.countP_append, List.countP_cons,
      List.filter_append, List.filter_cons, hp, ha, hm, he]
  · intro outcomes
    rw [getPolicyFromPolicyCheck_eq]
    show ((outcomes.countP isPassedOutcome : Int) +
        (outcomes.countP isAdvisoryFailedOutcome : Int) +
        (outcomes.countP isMandatoryFailedOutcome : Int) +
        (outcomes.countP isErroredOutcome : Int)) =
      (outcomes.countP isRecognizedOutcome : Int)
    have := countP_partition outcomes
    omega

/-- Witness for C10: inserting the unrecognized outcome of the concrete
scenario indeed leaves the result unchanged, and the general and concrete
consequences hold there. -/
theorem C10_unrecognized_outcome_ignored_witness :
    getPolicyFromPolicyCheck "run-a1" "polchk-1" "failed"
        ([{ outcome := "passed", enforcementLevel := "advisory", policyName := "p" }] ++
          { outcome := "unknown", enforcementLevel := "advisory", policyName := "q" } :: []) =
      getPolicyFromPolicyCheck "run-a1" "polchk-1" "failed"
        ([{ outcome := "passed", enforcementLevel := "advisory", policyName := "p" }] ++ []) ∧
    (∀ outcomes : List LegacyPolicySetOutcome,
      (getPolicyFromPolicyCheck "run-a1" "polchk-1" "failed" outcomes).totalCount =
        (outcomes.countP isRecognizedOutcome : Int)) ∧
    (getPolicyFromPolicyCheck "run-a1" "polchk-1" "failed"
        [{ outcome := "passed", enforcementLevel := "advisory", policyName := "p" },
         { outcome := "unknown", enforcementLevel := "advisory", policyName := "q" }]).totalCount <
      (([{ outcome := "passed", enforcementLevel := "advisory", policyName := "p" },
          { outcome := "unknown", enforcementLevel := "advisory", policyName := "q" }] :
          List LegacyPolicySetOutcome).length : Int) :=
  C10_unrecognized_outcome_ignored "run-a1" "polchk-1" "failed"
    [{ outcome := "passed", enforcementLevel := "advisory", policyName := "p" }] []
    { outcome := "unknown", enforcementLevel := "advisory", policyName := "q" }
    (by decide)

/-- Equality of two normalized evaluations in every field except the
stage/check identifiers and the failed-policy description field (which only
the modern path can populate): the failed-policy lists must agree once
descriptions are cleared. -/
def eqExceptIDsUpToDescription (a b : PolicyEvaluation) : Prop :=
  a.runID = b.runID ∧ a.totalCount = b.totalCount ∧
  a.passedCount = b.passedCount ∧ a.advisoryFailedCount = b.advisoryFailedCount ∧
  a.mandatoryFailedCount = b.mandatoryFailedCount ∧ a.erroredCount = b.erroredCount ∧
  a.failedPolicies.map PolicyDetail.stripDescription =
    b.failedPolicies.map PolicyDetail.stripDescription ∧
  a.status = b.status ∧ a.requiresOverride = b.requiresOverride

instance (a b : PolicyEvaluation) : Decidable (eqExceptIDsUpToDescription a b) := by
  unfold eqExceptIDsUpToDescription
  infer_instance

/-- C3 counterexample: a semantically equivalent modern/legacy input pair
(same counts, same failing policy name and level) whose normalized values
are *not* equal in all non-identifier fields — the modern failed-policy
entry carries the policy-set description, the legacy one cannot. -/
theorem C3_description_not_preserved :
    specEquivalentInputs
        { status := "failed"
          resultCount :=
            { passed := 0, advisoryFailed := 0, mandatoryFailed := 1, errored := 0 }
          policySetOutcomes :=
            [{ policySetName := "p", policySetDescription := "cost limit exceeded",
               mandatoryFailed := 1 }] }
        "failed"
        [{ outcome := "failed", enforcementLevel := "mandatory", policyName := "p" }] ∧
      ¬ eqExceptIDs
        (getPolicyFromTaskStages "run-a1" "ts-1"
          { status := "failed"
            resultCount :=
              { passed := 0, advisoryFailed := 0, mandatoryFailed := 1, errored := 0 }
            policySetOutcomes :=
              [{ policySetName := "p", policySetDescription := "cost limit exceeded",
                 mandatoryFailed := 1 }] })
        (getPolicyFromPolicyCheck "run-a1" "polchk-1" "failed"
          [{ outcome := "failed", enforcementLevel := "mandatory", policyName := "p" }]) := by
  constructor
  · decide
  · decide

/-- C3 amended: for semantically equivalent modern and legacy raw inputs
the two normalizer paths agree on every field except the stage/check
identifiers *and* the failed-policy description field; the failed-policy
lists agree once descriptions are cleared. -/
theorem C3_format_equivalence_up_to_description
    (runID stageID checkID : String)
    (modern : TfePolicyEvaluationRaw) (legacyStatus : String)
    (legacy : List LegacyPolicySetOutcome)
    (h : specEquivalentInputs modern legacyStatus legacy) :
    eqExceptIDsUpToDescription
      (getPolicyFromTaskStages runID stageID modern)
      (getPolicyFromPolicyCheck runID checkID legacyStatus legacy) := by
  obtain ⟨hs, hp, ha, hm, he, hnames⟩ := h
  have hp' : modern.resultCount.passed = (legacy.countP isPassedOutcome : Int) := hp
  have ha' : modern.resultCount.advisoryFailed =
    (legacy.countP isAdvisoryFailedOutcome : Int) := ha
  have hm' : modern.resultCount.mandatoryFailed =
    (legacy.countP isMandatoryFailedOutcome : Int) := hm
  have he' : modern.resultCount.errored = (legacy.countP isErroredOutcome : Int) := he
  have hnames' :
      (modern.policySetOutcomes.filter (fun o => decide (o.mandatoryFailed > 0))).map
          (fun o => o.policySetName) =
        (legacy.filter isMandatoryFailedOutcome).map (fun o => o.policyName) := hnames
  rw [getPolicyFromTaskStages_eq, getPolicyFromPolicyCheck_eq]
  unfold eqExceptIDsUpToDescription
  refine ⟨rfl, ?_, hp', ha', hm', he', ?_, hs, ?_⟩
  · show modern.resultCount.passed + modern.resultCount.advisoryFailed +
      modern.resultCount.mandatoryFailed + modern.resultCount.errored =
      (legacy.countP isPassedOutcome : Int) + (legacy.countP isAdvisoryFailedOutcome : Int) +
      (legacy.countP isMandatoryFailedOutcome : Int) + (legacy.countP isErroredOutcome : Int)
    rw [hp', ha', hm', he']
  · show ((modern.policySetOutcomes.filter (fun o => decide (o.mandatoryFailed > 0))).map
        modernFailedDetail).map PolicyDetail.stripDescription =
      ((legacy.filter isMandatoryFailedOutcome).map legacyFailedDetail).map
        PolicyDetail.stripDescription
    have lhs_eq :
        ((modern.policySetOutcomes.filter (fun o => decide (o.mandatoryFailed > 0))).map
          modernFailedDetail).map PolicyDetail.stripDescription =
        ((modern.policySetOutcomes.filter (fun o => decide (o.mandatoryFailed > 0))).map
          (fun o => o.policySetName)).map
            (fun n => { policyName := n, enforcementLevel := "mandatory",
                        status := "failed" }) := by
      simp [List.map_map, Function.comp_def, modernFailedDetail,
        PolicyDetail.stripDescription]
    have rhs_eq :
        ((legacy.filter isMandatoryFailedOutcome).map legacyFailedDetail).map
          PolicyDetail.stripDescription =
        ((legacy.filter isMandatoryFailedOutcome).map (fun o => o.policyName)).map
          (fun n => { policyName := n, enforcementLevel := "mandatory",
                      status := "failed" }) := by
      simp [List.map_map, Function.comp_def, legacyFailedDetail,
        PolicyDetail.stripDescription]
    rw [lhs_eq, rhs_eq, hnames']
  · show (decide (modern.resultCount.mandatoryFailed > 0)) =
      (decide ((legacy.countP isMandatoryFailedOutcome : Int) > 0))
    rw [hm']

/-- Witness for C3: the amended equivalence holds on the concrete
equivalent pair of the counterexample. -/
theorem C3_format_equivalence_up_to_description_witness :
    eqExceptIDsUpToDescription
      (getPolicyFromTaskStages "run-a1" "ts-1"
        { status := "failed"
          resultCount :=
            { passed := 0, advisoryFailed := 0, mandatoryFailed := 1, errored := 0 }
          policySetOutcomes :=
            [{ policySetName := "p", policySetDescription := "cost limit exceeded",
               mandatoryFailed := 1 }] })
      (getPolicyFromPolicyCheck "run-a1" "polchk-1" "failed"
        [{ outcome := "failed", enforcementLevel := "mandatory", policyName := "p" }]) :=
  C3_format_equivalence_up_to_description "run-a1" "ts-1" "polchk-1"
    { status := "failed"
      resultCount :=
        { passed := 0, advisoryFailed := 0, mandatoryFailed := 1, errored := 0 }
      policySetOutcomes :=
        [{ policySetName := "p", policySetDescription := "cost limit exceeded",
           mandatoryFailed := 1 }] }
    "failed"
    [{ outcome := "failed", enforcementLevel := "mandatory", policyName := "p" }]
    (by decide)

/-- C5 counterexample: with the audit-comment creation failing, the value
`OverridePolicy` returns is *identical* to the one returned on full
success — the comment failure produces no distinguishable partial-success
signal (it is only logged). -/
theorem C5_comment_failure_indistinguishable :
    (overridePolicy
        { readRun := some { id := "run-a1", status := "post_plan_awaiting_decision"
                            taskStage := some { id := "ts-1", status := "running" } }
          overrideStage := some { id := "ts-1", status := "task_stage_overridden" }
          commentErr := true }
        { runID := "run-a1", justification := "approved by CTO" }).1 =
      (overridePolicy
        { readRun := some { id := "run-a1", status := "post_plan_awaiting_decision"
                            taskStage := some { id := "ts-1", status := "running" } }
          overrideStage := some { id := "ts-1", status := "task_stage_overridden" }
          commentErr := false }
        { runID := "run-a1", justification := "approved by CTO" }).1 ∧
    (overridePolicy
        { readRun := some { id := "run-a1", status := "post_plan_awaiting_decision"
                            taskStage := some { id := "ts-1", status := "running" } }
          overrideStage := some { id := "ts-1", status := "task_stage_overridden" }
          commentErr := true }
        { runID := "run-a1", justification := "approved by CTO" }).1 =
      .ok { runID := "run-a1"
            policyStageID := "ts-1"
            justification := "approved by CTO"
            initialStatus := "post_plan_awaiting_decision"
            overrideComplete := true } := by
  constructor
  · rfl
  · rfl

/-- C5 amended: a failure to attach the audit comment is non-fatal and
*not* surfaced — the value `OverridePolicy` returns is independent of
whether the comment call failed, so the caller cannot distinguish a
comment failure from full success. -/
theorem C5_comment_failure_not_surfaced (g : GatewayBehavior)
    (options : OverridePolicyOptions) (b : Bool) :
    (overridePolicy { g with commentErr := b } options).1 =
      (overridePolicy { g with commentErr := false } options).1 := by
  obtain ⟨readRun, overrideStage, overrideCheckErr, commentErr⟩ := g
  cases readRun with
  | none => rfl
  | some run =>
    by_cases hst : run.status = "post_plan_awaiting_decision"
    · by_cases hts : run.hasTaskStage
      · cases overrideStage with
        | none =>
          simp [overridePolicy, validateOverrideEligibility, hst, hts,
            overrideViaTaskStage]
        | some ts =>
          simp [overridePolicy, validateOverrideEligibility, hst, hts,
            overrideViaTaskStage]
      · by_cases hpc : run.hasPolicyCheck
        · cases overrideCheckErr <;>
            simp [overridePolicy, validateOverrideEligibility, hst, hts, hpc,
              overrideViaPolicyCheck]
        · simp [overridePolicy, validateOverrideEligibility, hst, hts, hpc]
    · simp [overridePolicy, validateOverrideEligibility, hst]

/-- A prefix of still-awaiting observations is consumed by the wait loop
without changing its outcome. -/
theorem waitForPolicyDecision_skips_pending (pre : List String)
    (hpre : ∀ p ∈ pre, p = "post_plan_awaiting_decision") (tail : List String) :
    waitForPolicyDecision (pre ++ tail) = waitForPolicyDecision tail := by
  induction pre with
  | nil => rfl
  | cons p rest ih =>
    have hp : p = "post_plan_awaiting_decision" := hpre p (by simp)
    subst hp
    have hstep : waitForPolicyDecision (("post_plan_awaiting_decision" :: rest) ++ tail) =
        waitForPolicyDecision (rest ++ tail) := rfl
    rw [hstep]
    exact ih (fun q hq => hpre q (by simp [hq]))

/-- C6: after any number of still-awaiting observations, the first
observation of `discarded`, `canceled` or `errored` ends the wait at once
with that status's distinct terminal-failure reason — later observations
are never consulted (no retry) and the result is never the timeout result —
while a `post_plan_awaiting_decision` observation classifies as retryable,
making the loop retry with the next observation. -/
theorem C6_terminal_statuses_end_wait
    (pre rest : List String) (s : String)
    (hpre : ∀ p ∈ pre, p = "post_plan_awaiting_decision")
    (hs : s = "discarded" ∨ s = "canceled" ∨ s = "errored") :
    waitForPolicyDecision (pre ++ s :: rest) =
      .failed (if s = "discarded" then "run was discarded"
               else if s = "canceled" then "run was canceled"
               else "run entered error state") ∧
    (∀ reason, WaitResult.failed reason ≠ WaitResult.timedOut) ∧
    classifyRunStatus "post_plan_awaiting_decision" =
      .retryable "still awaiting decision" ∧
    (∀ tail, waitForPolicyDecision ("post_plan_awaiting_decision" :: tail) =
      waitForPolicyDecision tail) := by
  refine ⟨?_, fun reason => by simp, rfl, fun tail => rfl⟩
  rw [waitForPolicyDecision_skips_pending pre hpre]
  rcases hs with h | h | h <;> subst h <;> rfl

/-- Witness for C6: two awaiting probes followed by `discarded` end the
wait with the discard reason. -/
theorem C6_terminal_statuses_end_wait_witness :
    waitForPolicyDecision
        (["post_plan_awaiting_decision", "post_plan_awaiting_decision"] ++
          "discarded" :: ["applied"]) =
      .failed (if "discarded" = "discarded" then "run was discarded"
               else if "discarded" = "canceled" then "run was canceled"
               else "run entered error state") ∧
    (∀ reason, WaitResult.failed reason ≠ WaitResult.timedOut) ∧
    classifyRunStatus "post_plan_awaiting_decision" =
      .retryable "still awaiting decision" ∧
    (∀ tail, waitForPolicyDecision ("post_plan_awaiting_decision" :: tail) =
      waitForPolicyDecision tail) :=
  C6_terminal_statuses_end_wait
    ["post_plan_awaiting_decision", "post_plan_awaiting_decision"] ["applied"]
    "discarded" (by decide) (by decide)

/-- Every step of the policy-wait backoff schedule is positive (the floor
is 10 s and the cap is positive), so the engine always makes progress. -/
theorem policyWaitStepPos (cap : Nat) (hcap : 0 < cap) :
    ∀ m, 0 < backoffStep PolicyWaitInitialBackoff cap m :=
  fun m => lt_min hcap (fibBackoff_pos PolicyWaitInitialBackoff (by decide) m)

/-- The engine's cumulative sleep never exceeds the deadline: each sleep is
truncated to the remaining budget. -/
theorem waitEngineAux_elapsed_le (probe : Nat → ProbeStep) (step : Nat → Nat)
    (hstep : ∀ m, 0 < step m) (deadline : Nat) :
    ∀ k n elapsed, deadline - elapsed ≤ k → elapsed ≤ deadline →
      (waitEngineAux probe step hstep deadline n elapsed).elapsed ≤ deadline := by
  intro k
  induction k with
  | zero =>
    intro n elapsed hk hle
    rw [waitEngineAux.eq_def]
    cases hp : probe n
    · have hd : deadline ≤ elapsed := by omega
      simp [hd, EngineResult.elapsed, hle]
    · simp [EngineResult.elapsed, hle]
    · simp [EngineResult.elapsed, hle]
  | succ k ih =>
    intro n elapsed hk hle
    rw [waitEngineAux.eq_def]
    cases hp : probe n
    · by_cases hd : deadline ≤ elapsed
      · simp [hd, EngineResult.elapsed, hle]
      · simp only [hd, dite_false]
        apply ih
        · have hm : 0 < min (step n) (deadline - elapsed) :=
            lt_min (hstep n) (by omega)
          omega
        · have hmin : min (step n) (deadline - elapsed) ≤ deadline - elapsed :=
            min_le_right _ _
          omega
    · simp [EngineResult.elapsed, hle]
    · simp [EngineResult.elapsed, hle]

/-- The engine probes at most once per unit of remaining budget plus one
final probe, so an invocation started at zero performs at most
`deadline + 1` probes. -/
theorem waitEngineAux_probes_le (probe : Nat → ProbeStep) (step : Nat → Nat)
    (hstep : ∀ m, 0 < step m) (deadline : Nat) :
    ∀ k n elapsed, deadline - elapsed ≤ k →
      (waitEngineAux probe step hstep deadline n elapsed).probes ≤ n + 1 + k := by
  intro k
  induction k with
  | zero =>
    intro n elapsed hk
    rw [waitEngineAux.eq_def]
    cases hp : probe n
    · have hd : deadline ≤ elapsed := by omega
      simp [hd, EngineResult.probes]
    · simp [EngineResult.probes]
    · simp [EngineResult.probes]
  | succ k ih =>
    intro n elapsed hk
    rw [waitEngineAux.eq_def]
    cases hp : probe n
    · by_cases hd : deadline ≤ elapsed
      · simp [hd, EngineResult.probes]
      · simp only [hd, dite_false]
        have hm : 0 < min (step n) (deadline - elapsed) :=
          lt_min (hstep n) (by omega)
        have := ih (n + 1) (elapsed + min (step n) (deadline - elapsed)) (by omega)
        omega
    · simp [EngineResult.probes]
    · simp [EngineResult.probes]

/-- C7: the wait backoff schedule is Fibonacci-shaped from the 10-second
floor, every step is bounded by the per-step cap (30 s for the code's
strategy), and — for *any* positive per-step cap — an engine invocation
against the 30-minute total deadline never sleeps past the deadline (its
total sleep is at most `PolicyWaitMaxDuration`, independent of the cap) and
performs at most `PolicyWaitMaxDuration + 1` probes, so it terminates
within the deadline plus one in-flight probe. -/
theorem C7_backoff_shape_and_deadline_bound
    (cap : Nat) (hcap : 0 < cap) (probe : Nat → ProbeStep) :
    (fibBackoff PolicyWaitInitialBackoff 0 = 10 ∧
      fibBackoff PolicyWaitInitialBackoff 1 = 10 ∧
      ∀ n, fibBackoff PolicyWaitInitialBackoff (n + 2) =
        fibBackoff PolicyWaitInitialBackoff n +
          fibBackoff PolicyWaitInitialBackoff (n + 1)) ∧
    (∀ n, backoffStep PolicyWaitInitialBackoff cap n ≤ cap) ∧
    (∀ n, policyWaitBackoffStrategy n ≤ PolicyWaitMaxBackoff) ∧
    (waitEngine probe (backoffStep PolicyWaitInitialBackoff cap)
        (policyWaitStepPos cap hcap) PolicyWaitMaxDuration).elapsed ≤
      PolicyWaitMaxDuration ∧
    (waitEngine probe (backoffStep PolicyWaitInitialBackoff cap)
        (policyWaitStepPos cap hcap) PolicyWaitMaxDuration).probes ≤
      PolicyWaitMaxDuration + 1 := by
  refine ⟨⟨rfl, rfl, fun n => rfl⟩, fun n => min_le_left _ _,
    fun n => min_le_left _ _, ?_, ?_⟩
  · exact waitEngineAux_elapsed_le probe _ _ PolicyWaitMaxDuration
      PolicyWaitMaxDuration 0 0 (by omega) (by omega)
  · have := waitEngineAux_probes_le probe
      (backoffStep PolicyWaitInitialBackoff cap) (policyWaitStepPos cap hcap)
      PolicyWaitMaxDuration PolicyWaitMaxDuration 0 0 (by omega)
    simpa [waitEngine] using this

/-- Witness for C7: the bounds hold for the code's 30-second cap and an
always-pending probe stream. -/
theorem C7_backoff_shape_and_deadline_bound_witness :
    (fibBackoff PolicyWaitInitialBackoff 0 = 10 ∧
      fibBackoff PolicyWaitInitialBackoff 1 = 10 ∧
      ∀ n, fibBackoff PolicyWaitInitialBackoff (n + 2) =
        fibBackoff PolicyWaitInitialBackoff n +
          fibBackoff PolicyWaitInitialBackoff (n + 1)) ∧
    (∀ n, backoffStep PolicyWaitInitialBackoff PolicyWaitMaxBackoff n ≤
      PolicyWaitMaxBackoff) ∧
    (∀ n, policyWaitBackoffStrategy n ≤ PolicyWaitMaxBackoff) ∧
    (waitEngine (fun _ => ProbeStep.stillPending)
        (backoffStep PolicyWaitInitialBackoff PolicyWaitMaxBackoff)
        (policyWaitStepPos PolicyWaitMaxBackoff (by decide))
        PolicyWaitMaxDuration).elapsed ≤ PolicyWaitMaxDuration ∧
    (waitEngine (fun _ => ProbeStep.stillPending)
        (backoffStep PolicyWaitInitialBackoff PolicyWaitMaxBackoff)
        (policyWaitStepPos PolicyWaitMaxBackoff (by decide))
        PolicyWaitMaxDuration).probes ≤ PolicyWaitMaxDuration + 1 :=
  C7_backoff_shape_and_deadline_bound PolicyWaitMaxBackoff (by decide)
    (fun _ => ProbeStep.stillPending)
